import Mathlib

/-!
Shallow embedding of `src/app.py` (voice-bot call-session logic) for
verification. Python values that flow through the customer-record dictionaries
are modelled by `PValue` (numbers as rationals, strings, `None`); fallible
Python code (code that can raise) returns `Option`. The Flask routes
`/initiate_call` and `/process_audio` are modelled as state-transition
functions on the module-level `active_call_data` record; the external
Deepgram / Gemini calls are parameters (transcript, bot reply, TTS success).
-/

namespace VoiceBot

/-- Model of the Python values stored in a customer-record dict: `None`,
a number (Python int/float, modelled as an exact rational), or a string. -/
inductive PValue where
  | vNone : PValue
  | vNum : ℚ → PValue
  | vStr : String → PValue
deriving DecidableEq, Repr

/-- Python truthiness (`if x:`) for the modelled values. -/
def pyTruthy : PValue → Bool
  | .vNone => false
  | .vNum q => q != 0
  | .vStr s => s != ""

/-- Python `x == 0` for the modelled values (a string never equals `0`). -/
def pyEqZero : PValue → Bool
  | .vNum q => q == 0
  | _ => false

/-- Python `s.strip()` / `s.lower()` operate on the character list so that
they evaluate by kernel reduction (`String.trim`/`String.toLower` use UTF-8
byte positions, which do not). Lowercasing is ASCII, as in all strings the
routes actually handle. -/
def strTrim (s : String) : String :=
  ⟨((s.data.dropWhile Char.isWhitespace).reverse.dropWhile Char.isWhitespace).reverse⟩

/-- Python `s.lower()` (ASCII case folding). -/
def strLower (s : String) : String := ⟨s.data.map Char.toLower⟩

/-- Numeric value of a decimal-digit character. -/
def digitVal (c : Char) : ℕ := c.toNat - '0'.toNat

/-- Value of a list of decimal digits, most significant first. -/
def digitsVal (l : List Char) : ℕ := l.foldl (fun a c => a * 10 + digitVal c) 0

/-- Parser for Python `float(s)` on a (already stripped) character list:
optional sign, integer digits, optional `.` and fraction digits (at least one
digit overall), optional exponent. (`inf`/`nan` literals are not modelled;
no reachable flow feeds them in.) Returns `none` where Python raises. -/
def parseFloatChars (cs0 : List Char) : Option ℚ :=
  let sgn : ℚ × List Char :=
    match cs0 with
    | '+' :: t => (1, t)
    | '-' :: t => (-1, t)
    | t => (1, t)
  let cs := sgn.2
  let ip := cs.takeWhile Char.isDigit
  let cs1 := cs.dropWhile Char.isDigit
  let fpr : List Char × List Char :=
    match cs1 with
    | '.' :: t => (t.takeWhile Char.isDigit, t.dropWhile Char.isDigit)
    | t => ([], t)
  let fp := fpr.1
  if ip.isEmpty && fp.isEmpty then none
  else
    let mant : ℚ := sgn.1 * ((digitsVal ip : ℚ) + (digitsVal fp : ℚ) / ((10 : ℚ) ^ fp.length))
    match fpr.2 with
    | [] => some mant
    | e :: t =>
      if e = 'e' ∨ e = 'E' then
        let esgn : ℤ × List Char :=
          match t with
          | '+' :: u => (1, u)
          | '-' :: u => (-1, u)
          | u => (1, u)
        let ed := esgn.2.takeWhile Char.isDigit
        let rest := esgn.2.dropWhile Char.isDigit
        if ed.isEmpty || !rest.isEmpty then none
        else some (mant * (10 : ℚ) ^ (esgn.1 * (digitsVal ed : ℤ)))
      else none

/-- Python `float(s)` for strings (Python itself strips surrounding space). -/
def parseFloat? (s : String) : Option ℚ := parseFloatChars (strTrim s).data

/-- Python `float(x)`: numbers pass through, strings are parsed,
`None` raises (`TypeError`, modelled as `none`). -/
def pyFloat : PValue → Option ℚ
  | .vNum q => some q
  | .vStr s => parseFloat? s
  | .vNone => none

/-- Parser for Python `int(s)` on a stripped character list: optional sign
then at least one decimal digit (no dot, no exponent). -/
def parseIntChars (cs0 : List Char) : Option ℤ :=
  let sgn : ℤ × List Char :=
    match cs0 with
    | '+' :: t => (1, t)
    | '-' :: t => (-1, t)
    | t => (1, t)
  if !sgn.2.isEmpty && sgn.2.all Char.isDigit then some (sgn.1 * (digitsVal sgn.2 : ℤ))
  else none

/-- Python `int(x)`: floats truncate toward zero, strings must be integer
literals, `None` raises. -/
def pyInt : PValue → Option ℤ
  | .vNum q => some (Int.tdiv q.num (q.den : ℤ))
  | .vStr s => parseIntChars (strTrim s).data
  | .vNone => none

/-- Python `str(x)`. Reached by the code only for strings and `None`
(every numeric value entering `format_currency` converts via `float`
successfully); the numeric rendering is therefore a placeholder. -/
def pyStr : PValue → String
  | .vStr s => s
  | .vNone => "None"
  | .vNum q => toString q

/-- Round-half-even of `q * 100` (the rounding used by Python's fixed-point
`format` with two decimals), computed on numerator/denominator so that it
evaluates by kernel reduction. `q.den > 0`, so `Int.ediv`/`Int.emod` give the
floor and the nonnegative remainder. -/
def roundCents (q : ℚ) : ℤ :=
  let n := q.num * 100
  let d := (q.den : ℤ)
  let f := Int.ediv n d
  let r2 := 2 * Int.emod n d
  if r2 < d then f else if d < r2 then f + 1 else if f % 2 = 0 then f else f + 1

/-- Insert a comma before every later group of three digits, working over the
reversed digit list; models the `,` option of Python's format spec. -/
def groupAux : ℕ → List Char → List Char
  | _, [] => []
  | i, c :: cs =>
    if i % 3 = 0 && i != 0 then ',' :: c :: groupAux (i + 1) cs
    else c :: groupAux (i + 1) cs

/-- Thousands grouping of a digit string: `"10000"` becomes `"10,000"`. -/
def groupDigits (s : String) : String := ⟨(groupAux 0 s.data.reverse).reverse⟩

/-- Two-digit zero-padded fraction part. -/
def twoDigitFrac (n : ℕ) : String := if n < 10 then "0" ++ toString n else toString n

/-- The rendering `f"$\x7bfloat(amount):,.2f\x7d"` of app.py line 144 on an
(exact) numeric amount. -/
def formatCurrencyQ (q : ℚ) : String :=
  let cents := roundCents q
  let sign := if cents < 0 then "-" else ""
  let a := cents.natAbs
  "$" ++ sign ++ groupDigits (toString (a / 100)) ++ "." ++ twoDigitFrac (a % 100)

/-- Model of `format_currency` (app.py lines 142-146): try the currency rendering of
`float(amount)`; on `ValueError`/`TypeError` fall back to
`str(amount) if amount else "N/A"`. Total (never raises). -/
def format_currency (v : PValue) : String :=
  match pyFloat v with
  | some q => formatCurrencyQ q
  | none => if pyTruthy v then pyStr v else "N/A"

example : format_currency (.vNum 500) = "$500.00" := by decide
example : format_currency (.vNum 10000) = "$10,000.00" := by decide
example : format_currency (.vNum 250) = "$250.00" := by decide
example : format_currency (.vStr ("abc")) = "abc" := by decide
example : format_currency .vNone = "N/A" := by decide
example : format_currency (.vStr ("")) = "N/A" := by decide
example : format_currency (.vNum 1234567) = "$1,234,567.00" := by decide

/-! ### The LLM system prompt template

`LLM_SYSTEM_PROMPT_TEMPLATE` of app.py lines 82-120, split at its ten
format slots (in order: customer_name, loan_amount, monthly_debt,
credit_score_text, unknown_customer_placeholder, customer_name, loan_amount,
monthly_debt, half_monthly_debt, credit_score_text); `.format` is modelled by
concatenating the literal segments with the argument strings. -/

def tmplA : String := "
You are LoanMate, an advanced AI collections agent for Global Finance Solutions. Your primary objective is to discuss outstanding loan payments with customers in a way that is **exceptionally human-like, deeply empathetic, and highly understanding.** Your goal is not just to collect payments, but to do so while preserving and even enhancing the customer's relationship with Global Finance Solutions.

**Your Core Persona & Emotional Intelligence:**
*   **Empathetic Listener:** Actively listen to the customer. Your first priority is to make them feel heard and understood, especially if they are distressed.
*   **Warm & Approachable:** Your tone should be consistently warm, patient, and reassuring. Avoid sounding robotic, scripted, or judgmental.
*   **Emotionally Astute:** Detect and mirror the customer's emotional state appropriately. If they are sad, be compassionate. If they are frustrated, be patient and understanding. If they are cooperative, be appreciative.
*   **Natural Conversationalist:** Use natural language, vary your sentence structure, use conversational fillers if appropriate (e.g., \"I see,\" \"Hmm, I understand,\" \"Well,\"), and avoid repetitive phrases. Your responses should flow like a real human conversation.

**Understanding and Responding to Situations:**
*   **Beyond Keywords:** Do not rely solely on keywords. Understand the *intent* and *context* behind the customer's words. If a customer says, \"Things have been really tough since the factory closed,\" understand this implies job loss and financial hardship without them needing to say \"I lost my job.\"
*   **Handling Sensitive Information:**
    *   If a customer mentions health issues (their own or a family member's: \"hospital,\" \"sick,\" \"doctor,\" \"surgery,\" \"medical bills\"), accidents (\"car crash,\" \"injured\"), death or bereavement (\"passed away,\" \"funeral,\" \"condolences\"), job loss (\"laid off,\" \"unemployed,\" \"no income\"), or general severe hardship (\"crisis,\" \"struggling badly,\" \"difficult times\"):
        1.  **Prioritize Empathy:** Immediately offer genuine, heartfelt sympathy and acknowledge the difficulty of their situation. For example: \"Oh, I am so incredibly sorry to hear you're going through that. That sounds exceptionally challenging, and my thoughts are with you.\" or \"Please accept my deepest condolences. That's a terrible loss, and I can only imagine how difficult this time must be.\"
        2.  **Gentle Transition:** After expressing empathy, if appropriate and after a slight pause or acknowledgment from them, gently and respectfully inquire if they are in a position to discuss the loan, or if there's anything related to the loan account that might ease their burden slightly (like exploring options if company policy allows).
*   **Payment Discussions:**
    *   **Customer Context (Provided to you):**
        *   Customer Name: "

def tmplB : String := "
        *   Current Loan Amount: "

def tmplC : String := "
        *   Monthly EMI: "

def tmplD : String := "
        *   Credit Score: "

def tmplE : String := "
    *   **Initial Interaction Strategy (VERY IMPORTANT - Follow this based on 'Customer Name' above):**
        *   If \"Customer Name\" is \""

def tmplF : String := "\": Your *first and only goal* for your initial response is to politely ask for their full name to look up their account. Example: \"Hello, this is LoanMate from Global Finance Solutions. To start, could you please tell me your full name so I can bring up your account details?\" Do NOT proceed with any loan details until you have a name. Await their response.
        *   If a specific \"Customer Name\" (e.g., \"John Doe\") is provided: Your initial response should be to greet them by name, confirm if it's a good time to talk, and then state the purpose: \"Hello "

def tmplG : String := ", this is LoanMate from Global Finance Solutions. Is this a good time to talk? I'm calling regarding your loan account. The current outstanding amount is "

def tmplH : String := ", with a monthly payment of "

def tmplI : String := " which is now due. I was hoping we could discuss that today.\"
    *   **Inability to Pay Full Amount:** If they cannot pay the full amount, explore the reasons with understanding. \"I understand that making the full payment might be difficult right now.\"
    *   **Offering Partial Payment (50%):** If full payment isn't possible, and after understanding their situation (especially if sensitive), gently suggest a partial payment: \"Given what you've shared, I completely understand that the full amount might be a stretch. To help keep the account in good standing and avoid further issues, would it be at all possible to manage at least 50% of that, which would be "

def tmplJ : String := ", for now?\"
    *   **Explaining Consequences:** If they refuse any payment or ask for extensions beyond policy, you must explain the consequences (late fees, credit score impact, further collection). Do this *gently but clearly*, framing it as information to help them avoid negative outcomes, not as a threat. \"I want to be transparent about how this works. If the payment isn't made, it can unfortunately lead to things like late fees and could impact your credit score (currently "

def tmplK : String := "), which we certainly want to help you avoid.\"
    *   **Negotiation (if allowed by policy):** Be open to what the customer *can* do. \"What amount do you feel you could manage today, even if it's not the full 50%? Any payment helps.\"
*   **Call Closure:**
    * If payment agreed (full or partial): Thank them, provide generic payment instructions (e.g., \"You can make the payment through our online portal or by calling our payment line.\"), and end politely.
    * If no consent to talk or final refusal: Politely acknowledge and end the call. For refusal, reiterate awareness of consequences if appropriate.
*   **Maintaining Control & Objective:** While being empathetic, remember the call's purpose. Gently guide the conversation back to the payment if it strays too far for too long, but only after adequately addressing the customer's immediate emotional needs or concerns.
*   **Flexibility:** Be prepared for unexpected questions or statements. Don't get flustered. Use your understanding to respond appropriately. If you don't have an answer, say you'll find out (if that's an option) or politely state the limits of your knowledge.

**Output:**
*   Your response should be plain text, suitable for a Text-to-Speech (TTS) engine.
*   Do NOT include non-verbal cues like \"[gentle tone]\" in your text response. The TTS engine should handle expressiveness based on its capabilities and the inherent emotion in the text.
*   Keep responses concise and conversational.
"

/-- The constant `UNKNOWN_CUSTOMER_PLACEHOLDER` of app.py line 121. -/
def UNKNOWN_CUSTOMER_PLACEHOLDER : String := "the customer (name not yet identified)"

/-- The five strings substituted into the template (app.py lines 166-173). -/
structure PromptArgs where
  customer_name : String
  loan_amount : String
  monthly_debt : String
  half_monthly_debt : String
  credit_score_text : String
deriving DecidableEq, Repr

/-- Model of `LLM_SYSTEM_PROMPT_TEMPLATE.format(...)`: substitute the six keyword
arguments into the ten slots, in template order. -/
def renderTemplate (customer_name loan_amount monthly_debt half_monthly_debt credit_score_text unknown_customer_placeholder : String) : String :=
  tmplA ++ customer_name ++ tmplB ++ loan_amount ++ tmplC ++ monthly_debt ++ tmplD ++
    credit_score_text ++ tmplE ++ unknown_customer_placeholder ++ tmplF ++ customer_name ++
    tmplG ++ loan_amount ++ tmplH ++ monthly_debt ++ tmplI ++ half_monthly_debt ++ tmplJ ++
    credit_score_text ++ tmplK

/-- A customer-record dictionary as used by `generate_system_prompt`: the four
keys the code reads, each either present with a value or missing (`dict.get`
with a default covers the missing case; a present key can still hold `None`).
Field names stand for the keys `Random_Name`, `Current Loan Amount`,
`Monthly Debt`, `Credit Score`. -/
structure CustDict where
  Random_Name : Option PValue
  Current_Loan_Amount : Option PValue
  Monthly_Debt : Option PValue
  Credit_Score : Option PValue
deriving DecidableEq, Repr

/-- Model of `format_currency(float(emi_val) * 0.5 if emi_val else 0)`, app.py line
156. The bare `float(emi_val)` sits outside `format_currency`'s try/except,
so a truthy value that does not convert raises (`none`). -/
def halfEmiStr (emiV : PValue) : Option String :=
  if pyTruthy emiV then (pyFloat emiV).map (fun q => format_currency (.vNum (q * (1 / 2))))
  else some (format_currency (.vNum 0))

/-- Model of `'N/A' if not score_val or score_val == 0 else str(int(score_val))`,
app.py line 158; the bare `int(score_val)` raises on a truthy nonzero value
that is not an integer literal (`none`). -/
def scoreStr (scoreV : PValue) : Option String :=
  if !pyTruthy scoreV || pyEqZero scoreV then some ("N/A")
  else (pyInt scoreV).map (fun z => toString z)

/-- The argument-building part of `generate_system_prompt` (app.py lines
149-164). Returns `none` where the Python raises (`halfEmiStr` or
`scoreStr`). -/
def composeArgs : Option CustDict → Option PromptArgs
  | some d =>
    let nameV := d.Random_Name.getD (.vStr UNKNOWN_CUSTOMER_PLACEHOLDER)
    let loanV := d.Current_Loan_Amount.getD (.vNum 0)
    let emiV := d.Monthly_Debt.getD (.vNum 0)
    let loan := format_currency loanV
    let emi := format_currency emiV
    let scoreV := d.Credit_Score.getD (.vNum 0)
    match halfEmiStr emiV, scoreStr scoreV with
    | some h, some sc => some ⟨pyStr nameV, loan, emi, h, sc⟩
    | _, _ => none
  | none =>
    some ⟨UNKNOWN_CUSTOMER_PLACEHOLDER, "N/A (details not yet available)",
      "N/A (details not yet available)", "N/A (details not yet available)",
      "N/A (details not yet available)"⟩

/-- Model of `generate_system_prompt` (app.py lines 149-173); `none` models a raised
exception. -/
def generate_system_prompt (ci : Option CustDict) : Option String :=
  (composeArgs ci).map (fun a =>
    renderTemplate a.customer_name a.loan_amount a.monthly_debt a.half_monthly_debt
      a.credit_score_text UNKNOWN_CUSTOMER_PLACEHOLDER)

/-! ### Substrings -/

/-- Python `pat in s` (substring containment), as infix of the character
lists; decidable via `List.decidableInfix`. -/
def strContains (s pat : String) : Prop := pat.data <:+: s.data

instance (s pat : String) : Decidable (strContains s pat) :=
  List.decidableInfix pat.data s.data

theorem str_append_assoc (a b c : String) : a ++ b ++ c = a ++ (b ++ c) := by
  apply String.ext
  simp [String.data_append, List.append_assoc]

/-- Exhibiting a decomposition proves containment. -/
theorem strContains_intro (s pre pat post : String) (h : s = pre ++ pat ++ post) :
    strContains s pat := by
  subst h
  exact ⟨pre.data, post.data, by simp [String.data_append, List.append_assoc]⟩

/-- The heuristic of app.py lines 395-396: the lowercased reply contains
"name" together with "what is your" or "could you tell me". -/
def nameRequestHeuristic (reply : String) : Bool :=
  let l := strLower reply
  decide (strContains l ("name")) &&
    (decide (strContains l ("what is your")) || decide (strContains l ("could you tell me")))

example : nameRequestHeuristic ("Could you tell me your name?") = true := by decide
example : nameRequestHeuristic ("What is your account number?") = false := by decide
example : nameRequestHeuristic ("Hi there!") = false := by decide

/-! ### Customer directory -/

/-- One row of `customer_df` after `load_data` (app.py lines 57-76):
`Random_Name` is a string (`astype(str)`), `Monthly Debt` and
`Current Loan Amount` are coerced to numbers, but `Credit Score` is only
`fillna(0)` and can still hold any value from the CSV. The row type allows
arbitrary values in all three data columns to cover malformed datasets. -/
structure Row where
  Random_Name : String
  Credit_Score : PValue
  Monthly_Debt : PValue
  Current_Loan_Amount : PValue
deriving DecidableEq, Repr

/-- Row to dict, `.iloc[0].to_dict()`: every column key is present in the dict. -/
def rowToDict (r : Row) : CustDict :=
  ⟨some (.vStr r.Random_Name), some r.Current_Loan_Amount, some r.Monthly_Debt,
    some r.Credit_Score⟩

/-- Model of `get_customer_details` (app.py lines 131-139): first row whose stripped,
lowercased `Random_Name` equals the stripped, lowercased query; `none` when
the dataframe is empty or no row matches. -/
def get_customer_details (df : List Row) (name : String) : Option CustDict :=
  (df.find? (fun r => strLower (strTrim r.Random_Name) == strLower (strTrim name))).map rowToDict

/-! ### The call session -/

/-- Message role in `conversation_history` ("user" / "model"). -/
inductive Role where
  | user : Role
  | model : Role
deriving DecidableEq, Repr

/-- One history entry `{"role": r, "parts": [{"text": t}]}` (the code always
stores exactly one text part). -/
structure Msg where
  role : Role
  text : String
deriving DecidableEq, Repr

/-- The module-level `active_call_data` dict (app.py lines 123-127). -/
structure SessionState where
  customer_info : Option CustDict
  conversation_history : List Msg
  asked_for_name_in_last_turn : Bool
deriving DecidableEq, Repr

/-- The state installed at module load and by the index route
(app.py lines 123-127 and 291-297). -/
def resetState : SessionState := ⟨none, [], false⟩

/-- The constant `MAX_HISTORY_TURNS` of app.py line 402. -/
def MAX_HISTORY_TURNS : ℕ := 10

/-- History trimming of app.py lines 402-406: keep the last
`MAX_HISTORY_TURNS * 2` entries when the history is longer. -/
def trimHistory (l : List Msg) : List Msg :=
  if l.length > MAX_HISTORY_TURNS * 2 then l.drop (l.length - MAX_HISTORY_TURNS * 2) else l

/-- The mock branch of `call_gemini_model` (app.py lines 176-188), used when
`gemini_configured` is false. It reads the global session state; the reply
for a known customer indexes `['Random_Name']`, which raises (modelled
`none`) if the key is missing. (`if active_call_data.get("customer_info")`
is dict truthiness; dicts reaching this state are non-empty.) -/
def mockClarification : String :=
  "Thank you. My name is Mock User. What is this call regarding?"

def mockUnknownGreeting : String :=
  "Hello, this is LoanMate from Global Finance Solutions. Could you please tell me your full name so I can bring up your account details?"

def mockKnownGreeting (v : PValue) : String :=
  "Hello " ++ pyStr v ++
    ", this is LoanMate from Global Finance Solutions. Your mock loan of $1000 is due. Can you pay?"

def call_gemini_mock (st : SessionState) : Option String :=
  if st.asked_for_name_in_last_turn && st.customer_info.isNone then
    some mockClarification
  else
    match st.customer_info with
    | some d => (d.Random_Name).map mockKnownGreeting
    | none => some mockUnknownGreeting

/-- The lookup at the start of `/initiate_call` (app.py lines 302-317):
`data.get('customerName', '').strip()`, then a directory lookup only when the
stripped name is non-empty. -/
def initInfo (df : List Row) (customerNameRaw : String) : Option CustDict :=
  if strTrim customerNameRaw = "" then none else get_customer_details df (strTrim customerNameRaw)

/-- Route `/initiate_call` (app.py lines 300-341) as a state transition. The bot
reply text is a parameter standing for whatever `call_gemini_model` returned
(live model, mock, or one of its internal fallback strings — the function
itself catches its errors and always returns a string). When
`generate_system_prompt` raises, the route aborts with the mutations made so
far (the reset, and any resolved `customer_info`) already applied. The later
TTS step does not touch session state. -/
def initiateCall (df : List Row) (customerNameRaw : String) (botReply : String) : SessionState :=
  let info := initInfo df customerNameRaw
  match generate_system_prompt info with
  | none => ⟨info, [], false⟩
  | some sp =>
    let asked := info.isNone && decide (strContains sp UNKNOWN_CUSTOMER_PLACEHOLDER)
    ⟨info, [⟨Role.model, botReply⟩], asked⟩

/-- Outcome of a `/process_audio` request: a 200 with the spoken reply, a 500
with a spoken apology (caught exception, error TTS succeeded), or a 500 JSON
error (error TTS failed too). -/
inductive TurnOutcome where
  | spokenReply : String → TurnOutcome
  | errorSpoken : String → TurnOutcome
  | errorJson : TurnOutcome
deriving DecidableEq, Repr

/-- Whether a `/process_audio` outcome is the caught-exception error response
(app.py lines 412-420) rather than a completed 200. -/
def isErrorOutcome : TurnOutcome → Bool
  | .spokenReply _ => false
  | .errorSpoken _ => true
  | .errorJson => true

/-- The except-clause of app.py lines 412-420: speak a fixed apology; if that
TTS also fails, return a JSON error. -/
def errorOutcome (ttsOk : Bool) : TurnOutcome :=
  if ttsOk then .errorSpoken ("I've encountered an unexpected problem. Please try your request again later.")
  else .errorJson

/-- The identity-resolution step of app.py lines 378-387: when the last turn
asked for a name and no customer is known, treat the transcript as a
candidate name, look it up, and clear the flag. -/
def resolveIdentity (df : List Row) (st : SessionState) (transcript : String) :
    Option CustDict × Bool :=
  if st.asked_for_name_in_last_turn && st.customer_info.isNone then
    match get_customer_details df (strTrim transcript) with
    | some cd => (some cd, false)
    | none => (st.customer_info, false)
  else (st.customer_info, st.asked_for_name_in_last_turn)

/-- The flag re-derivation of app.py lines 392-398: while the customer is
unknown and the prompt used the unknown branch, set the flag when the reply
matches the name-request heuristic (the flag is never cleared here). -/
def updateAskedFlag (info : Option CustDict) (sp : String) (reply : String) (asked : Bool) :
    Bool :=
  if info.isNone && decide (strContains sp UNKNOWN_CUSTOMER_PLACEHOLDER) then
    if nameRequestHeuristic reply then true else asked
  else asked

/-- Route `/process_audio` (app.py lines 344-420) as a state transition.
`sttResult` is the Deepgram transcription: `none` models an exception in
audio read/STT (before any mutation), `some ""` the empty transcript, and
`some t` a usable transcript. `botReply` stands for the string
`call_gemini_model` returned; `ttsOk` says whether `text_to_speech` calls
succeed in this request. Returns the session state after the request plus
the HTTP outcome. -/
def processAudio (df : List Row) (sttResult : Option String) (botReply : String)
    (ttsOk : Bool) (st : SessionState) : SessionState × TurnOutcome :=
  match sttResult with
  | none => (st, errorOutcome ttsOk)
  | some transcript =>
    if transcript = "" then
      (st, if ttsOk then .spokenReply ("I'm sorry, I didn't catch that. Could you please repeat?")
        else errorOutcome ttsOk)
    else
      let ri := resolveIdentity df st transcript
      let hist1 := st.conversation_history ++ [⟨Role.user, transcript⟩]
      match generate_system_prompt ri.1 with
      | none => (⟨ri.1, hist1, ri.2⟩, errorOutcome ttsOk)
      | some sp =>
        let asked2 := updateAskedFlag ri.1 sp botReply ri.2
        let hist2 := trimHistory (hist1 ++ [⟨Role.model, botReply⟩])
        (⟨ri.1, hist2, asked2⟩, if ttsOk then .spokenReply botReply else errorOutcome ttsOk)

/-- Session states reachable through the public operations: the module-load /
index-route reset, `/initiate_call`, and `/process_audio` (with arbitrary
directory contents, transcripts, bot replies and TTS behaviour). -/
inductive Reachable : SessionState → Prop where
  | init : Reachable resetState
  | indexReset {s : SessionState} : Reachable s → Reachable resetState
  | start {s : SessionState} (df : List Row) (nm reply : String) :
      Reachable s → Reachable (initiateCall df nm reply)
  | audio {s : SessionState} (df : List Row) (stt : Option String) (reply : String)
      (ttsOk : Bool) : Reachable s → Reachable (processAudio df stt reply ttsOk s).1

/-! ### Helper lemmas -/

/-- Stepping lemma: `/initiate_call` when prompt composition raises. -/
theorem initiateCall_eq_fail (df : List Row) (nm reply : String)
    (hsp : generate_system_prompt (initInfo df nm) = none) :
    initiateCall df nm reply = ⟨initInfo df nm, [], false⟩ := by
  simp only [initiateCall]
  rw [hsp]

/-- Stepping lemma: `/initiate_call` when prompt composition succeeds. -/
theorem initiateCall_eq_succ (df : List Row) (nm reply sp : String)
    (hsp : generate_system_prompt (initInfo df nm) = some sp) :
    initiateCall df nm reply =
      ⟨initInfo df nm, [⟨Role.model, reply⟩],
        (initInfo df nm).isNone && decide (strContains sp UNKNOWN_CUSTOMER_PLACEHOLDER)⟩ := by
  simp only [initiateCall]
  rw [hsp]

/-- Stepping lemma: `/process_audio` when the STT stage raises. -/
theorem processAudio_eq_sttFail (df : List Row) (reply : String) (ttsOk : Bool)
    (st : SessionState) :
    processAudio df none reply ttsOk st = (st, errorOutcome ttsOk) := rfl

/-- Stepping lemma: `/process_audio` on the empty transcript. -/
theorem processAudio_eq_empty (df : List Row) (reply : String) (ttsOk : Bool)
    (st : SessionState) :
    processAudio df (some ("")) reply ttsOk st =
      (st, if ttsOk then .spokenReply ("I'm sorry, I didn't catch that. Could you please repeat?")
        else errorOutcome ttsOk) := rfl

/-- Stepping lemma: `/process_audio` on a usable transcript when prompt
composition raises after the customer utterance was appended. -/
theorem processAudio_eq_composeFail (df : List Row) (t reply : String) (ttsOk : Bool)
    (st : SessionState) (ht : t ≠ "")
    (hsp : generate_system_prompt (resolveIdentity df st t).1 = none) :
    processAudio df (some t) reply ttsOk st =
      (⟨(resolveIdentity df st t).1,
        st.conversation_history ++ [⟨Role.user, t⟩], (resolveIdentity df st t).2⟩,
        errorOutcome ttsOk) := by
  simp only [processAudio]
  rw [if_neg ht, hsp]

/-- Stepping lemma: `/process_audio` on a usable transcript with successful
prompt composition: the full turn transition runs; only the outcome depends
on TTS. -/
theorem processAudio_eq_success (df : List Row) (t reply sp : String) (ttsOk : Bool)
    (st : SessionState) (ht : t ≠ "")
    (hsp : generate_system_prompt (resolveIdentity df st t).1 = some sp) :
    processAudio df (some t) reply ttsOk st =
      (⟨(resolveIdentity df st t).1,
        trimHistory (st.conversation_history ++ [⟨Role.user, t⟩] ++ [⟨Role.model, reply⟩]),
        updateAskedFlag (resolveIdentity df st t).1 sp reply (resolveIdentity df st t).2⟩,
        if ttsOk then .spokenReply reply else errorOutcome ttsOk) := by
  simp only [processAudio]
  rw [if_neg ht, hsp]

/-- The prompt `generate_system_prompt(None)` renders. -/
def unknownBranchPrompt : String :=
  renderTemplate UNKNOWN_CUSTOMER_PLACEHOLDER ("N/A (details not yet available)")
    "N/A (details not yet available)" "N/A (details not yet available)"
    "N/A (details not yet available)" UNKNOWN_CUSTOMER_PLACEHOLDER

theorem generate_none_eq : generate_system_prompt none = some unknownBranchPrompt := rfl

theorem unknownBranchPrompt_contains :
    strContains unknownBranchPrompt UNKNOWN_CUSTOMER_PLACEHOLDER :=
  strContains_intro _ tmplA UNKNOWN_CUSTOMER_PLACEHOLDER
    (tmplB ++ "N/A (details not yet available)" ++ tmplC ++ "N/A (details not yet available)" ++
      tmplD ++ "N/A (details not yet available)" ++ tmplE ++ UNKNOWN_CUSTOMER_PLACEHOLDER ++
      tmplF ++ UNKNOWN_CUSTOMER_PLACEHOLDER ++ tmplG ++ "N/A (details not yet available)" ++
      tmplH ++ "N/A (details not yet available)" ++ tmplI ++ "N/A (details not yet available)" ++
      tmplJ ++ "N/A (details not yet available)" ++ tmplK)
    (by simp only [unknownBranchPrompt, renderTemplate, str_append_assoc])

/-- Every rendered template contains its `unknown_customer_placeholder`
argument: it is substituted unconditionally into slot five. -/
theorem renderTemplate_contains_unknown (n l m h c u : String) :
    strContains (renderTemplate n l m h c u) u :=
  strContains_intro _ (tmplA ++ n ++ tmplB ++ l ++ tmplC ++ m ++ tmplD ++ c ++ tmplE) u
    (tmplF ++ n ++ tmplG ++ l ++ tmplH ++ m ++ tmplI ++ h ++ tmplJ ++ c ++ tmplK)
    (by simp only [renderTemplate, str_append_assoc])

theorem generate_contains_unknown (ci : Option CustDict) (p : String)
    (hp : generate_system_prompt ci = some p) :
    strContains p UNKNOWN_CUSTOMER_PLACEHOLDER := by
  unfold generate_system_prompt at hp
  cases harg : composeArgs ci with
  | none => rw [harg] at hp; exact absurd hp (by simp)
  | some a =>
    rw [harg] at hp
    have hp2 : renderTemplate a.customer_name a.loan_amount a.monthly_debt
        a.half_monthly_debt a.credit_score_text UNKNOWN_CUSTOMER_PLACEHOLDER = p :=
      Option.some.inj hp
    rw [← hp2]
    exact renderTemplate_contains_unknown _ _ _ _ _ _

theorem generate_contains_unknown_decide (ci : Option CustDict) (p : String)
    (hp : generate_system_prompt ci = some p) :
    decide (strContains p UNKNOWN_CUSTOMER_PLACEHOLDER) = true :=
  decide_eq_true (generate_contains_unknown ci p hp)

theorem trimHistory_length_le (l : List Msg) :
    (trimHistory l).length ≤ MAX_HISTORY_TURNS * 2 := by
  unfold trimHistory
  split
  · rename_i h
    rw [List.length_drop]
    omega
  · omega

theorem trimHistory_suffix (l : List Msg) : trimHistory l <:+ l := by
  unfold trimHistory
  split
  · exact List.drop_suffix _ _
  · exact List.suffix_refl _

/-- Role alternation of a history: adjacent entries have different roles. -/
def alternatingB : List Msg → Bool
  | [] => true
  | [_] => true
  | a :: b :: t => (a.role != b.role) && alternatingB (b :: t)

theorem alternatingB_tail {a : Msg} {t : List Msg} (h : alternatingB (a :: t) = true) :
    alternatingB t = true := by
  cases t with
  | nil => rfl
  | cons b u => exact (Bool.and_eq_true_iff.mp h).2

theorem alternatingB_drop (n : ℕ) (l : List Msg) (h : alternatingB l = true) :
    alternatingB (l.drop n) = true := by
  induction n generalizing l with
  | zero => simpa using h
  | succ k ih =>
    cases l with
    | nil => rfl
    | cons a t => exact ih t (alternatingB_tail h)

theorem alternatingB_trimHistory (l : List Msg) (h : alternatingB l = true) :
    alternatingB (trimHistory l) = true := by
  unfold trimHistory
  split
  · exact alternatingB_drop _ _ h
  · exact h

/-- Under the session invariant, the identity-resolution step always leaves
the awaiting-name flag cleared. -/
theorem resolveIdentity_flag_false (df : List Row) (st : SessionState) (t : String)
    (ih : st.asked_for_name_in_last_turn = true → st.customer_info = none) :
    (resolveIdentity df st t).2 = false := by
  unfold resolveIdentity
  cases hask : st.asked_for_name_in_last_turn with
  | false => simp [hask]
  | true =>
    rw [ih hask]
    simp only [Option.isNone_none, Bool.and_true]
    cases get_customer_details df (strTrim t) <;> simp

/-- The identity-resolution step does not invent the flag: its resulting flag
is `true` only if the incoming flag was. -/
theorem resolveIdentity_flag_mono (df : List Row) (st : SessionState) (t : String)
    (h : (resolveIdentity df st t).2 = true) :
    st.asked_for_name_in_last_turn = true := by
  unfold resolveIdentity at h
  by_cases hg : (st.asked_for_name_in_last_turn && st.customer_info.isNone) = true
  · rw [if_pos hg] at h
    exact (Bool.and_eq_true_iff.mp hg).1
  · rw [if_neg hg] at h
    exact h

/-- The flag re-derivation produces `true` only when the customer is unknown
or the incoming flag was already `true`. -/
theorem updateAskedFlag_true (info : Option CustDict) (sp reply : String) (a : Bool)
    (h : updateAskedFlag info sp reply a = true) : info = none ∨ a = true := by
  unfold updateAskedFlag at h
  by_cases hg : (info.isNone && decide (strContains sp UNKNOWN_CUSTOMER_PLACEHOLDER)) = true
  · left
    exact Option.isNone_iff_eq_none.mp (Bool.and_eq_true_iff.mp hg).1
  · right
    rw [if_neg hg] at h
    exact h

/-! ### Claims -/

/-- C1: Session invariant: for every state reachable via the public
operations (index reset, `/initiate_call`, `/process_audio`),
`asked_for_name_in_last_turn` is true only while `customer_info` is absent;
whenever `customer_info` is present the flag is false. -/
theorem C1_session_invariant (s : SessionState) (hr : Reachable s) :
    s.asked_for_name_in_last_turn = true → s.customer_info = none := by
  induction hr with
  | init => intro h; exact absurd h (by simp [resetState])
  | indexReset _ _ => intro h; exact absurd h (by simp [resetState])
  | start df nm reply _ _ =>
    intro h
    cases hg : generate_system_prompt (initInfo df nm) with
    | none =>
      rw [initiateCall_eq_fail df nm reply hg] at h
      exact absurd h (by simp)
    | some sp =>
      rw [initiateCall_eq_succ df nm reply sp hg] at h ⊢
      dsimp only at h ⊢
      exact Option.isNone_iff_eq_none.mp (Bool.and_eq_true_iff.mp h).1
  | audio df stt reply ttsOk _ ih =>
    intro h
    cases stt with
    | none => exact ih h
    | some t =>
      by_cases ht : t = ""
      · subst ht; exact ih h
      · have hrf := resolveIdentity_flag_false df _ t ih
        cases hg : generate_system_prompt (resolveIdentity df _ t).1 with
        | none =>
          rw [processAudio_eq_composeFail df t reply ttsOk _ ht hg] at h
          dsimp only at h
          rw [hrf] at h
          exact absurd h (by simp)
        | some sp =>
          rw [processAudio_eq_success df t reply sp ttsOk _ ht hg] at h ⊢
          dsimp only at h ⊢
          rcases updateAskedFlag_true _ _ _ _ h with hn | ha
          · exact hn
          · rw [hrf] at ha
            exact absurd ha (by simp)

/-- C1 witness: starting a call with no supplied name from the reset state
reaches a state whose awaiting-name flag is set, and the invariant yields
that its `customer_info` is absent. -/
theorem C1_session_invariant_witness :
    (initiateCall [] "" "x").customer_info = none :=
  C1_session_invariant (initiateCall [] "" "x")
    (Reachable.start [] "" "x" Reachable.init)
    (by
      show (initiateCall [] "" "x").asked_for_name_in_last_turn = true
      rw [initiateCall_eq_succ [] "" "x" unknownBranchPrompt rfl]
      dsimp only
      rw [decide_eq_true unknownBranchPrompt_contains]
      rfl)

/-- The `Monthly Debt` values on which app.py line 156 does not raise:
falsy, or convertible by `float`. -/
def monthlyDebtSafe (d : CustDict) : Prop :=
  pyTruthy (d.Monthly_Debt.getD (.vNum 0)) = false ∨
    (pyFloat (d.Monthly_Debt.getD (.vNum 0))).isSome = true

/-- The `Credit Score` values on which app.py line 158 does not raise:
falsy, equal to `0`, or convertible by `int`. -/
def creditScoreSafe (d : CustDict) : Prop :=
  pyTruthy (d.Credit_Score.getD (.vNum 0)) = false ∨
    pyEqZero (d.Credit_Score.getD (.vNum 0)) = true ∨
    (pyInt (d.Credit_Score.getD (.vNum 0))).isSome = true

/-- C3 counterexample: a record whose `Monthly Debt` is the truthy
non-numeric string "abc" makes `generate_system_prompt` raise
(`float("abc")` on app.py line 156 is outside `format_currency`'s
try/except), refuting totality over all record dictionaries. -/
theorem C3_counterexample :
    generate_system_prompt
      (some ⟨some (.vStr ("Jane")), some (.vNum 100), some (.vStr ("abc")), some (.vNum 650)⟩) =
      none := by decide

/-- C3 amended: `generate_system_prompt` returns a string for the
absent-customer input and for every record whose `Monthly Debt` is falsy or
float-convertible and whose `Credit Score` is falsy, zero, or
int-convertible (missing or invalid `Current Loan Amount` always degrades
inside `format_currency`); outside those conditions it raises. -/
theorem C3_composer_totality_amended :
    (generate_system_prompt none).isSome = true ∧
      ∀ d : CustDict, monthlyDebtSafe d → creditScoreSafe d →
        (generate_system_prompt (some d)).isSome = true := by
  refine ⟨rfl, ?_⟩
  intro d hm hs
  have hhalf : (halfEmiStr (d.Monthly_Debt.getD (.vNum 0))).isSome = true := by
    unfold halfEmiStr
    rcases hm with hm | hm
    · rw [hm]; simp
    · rw [Option.isSome_iff_exists] at hm
      obtain ⟨q, hq⟩ := hm
      rw [hq]
      split <;> simp
  have hscore : (scoreStr (d.Credit_Score.getD (.vNum 0))).isSome = true := by
    unfold scoreStr
    rcases hs with hs | hs | hs
    · rw [hs]; simp
    · rw [hs]; simp
    · rw [Option.isSome_iff_exists] at hs
      obtain ⟨z, hz⟩ := hs
      rw [hz]
      split <;> simp
  rw [Option.isSome_iff_exists] at hhalf hscore
  obtain ⟨h, hh⟩ := hhalf
  obtain ⟨sc, hsc⟩ := hscore
  simp only [generate_system_prompt, composeArgs, hh, hsc, Option.isSome_map]
  rfl

/-- C3 witness: the amended totality applied to a well-formed numeric
record. -/
theorem C3_composer_totality_witness :
    (generate_system_prompt
      (some ⟨some (.vStr ("John Doe")), some (.vNum 10000), some (.vNum 500),
        some (.vNum 700)⟩)).isSome = true :=
  C3_composer_totality_amended.2
    ⟨some (.vStr ("John Doe")), some (.vNum 10000), some (.vNum 500), some (.vNum 700)⟩
    (Or.inr (by decide)) (Or.inr (Or.inr (by decide)))

/-- C6: with the language-model backend disabled, the mock reply is a
deterministic function of the identity-resolution state: the clarification
mock whenever the session is awaiting a name with no known customer, the
generic ask-for-name greeting when idle and unknown, and the personalized
greeting when a customer record is attached. -/
theorem C6_mock_backend_selection (st : SessionState) :
    (st.asked_for_name_in_last_turn = true → st.customer_info = none →
      call_gemini_mock st = some mockClarification) ∧
    (st.asked_for_name_in_last_turn = false → st.customer_info = none →
      call_gemini_mock st = some mockUnknownGreeting) ∧
    (∀ d : CustDict, st.customer_info = some d →
      call_gemini_mock st = d.Random_Name.map mockKnownGreeting) := by
  refine ⟨?_, ?_, ?_⟩
  · intro ha hn
    unfold call_gemini_mock
    rw [ha, hn]
    rfl
  · intro ha hn
    unfold call_gemini_mock
    rw [ha, hn]
    rfl
  · intro d hd
    unfold call_gemini_mock
    rw [hd]
    simp

/-- C6 witness: in the awaiting-name state the mock reply is the
clarification mock. -/
theorem C6_mock_backend_selection_witness :
    call_gemini_mock ⟨none, [], true⟩ = some mockClarification :=
  (C6_mock_backend_selection ⟨none, [], true⟩).1 rfl rfl

/-- Under `customer_info = none` after resolution, the resulting flag is
also `false` (either the guard ran and cleared it, or it never held). -/
theorem resolveIdentity_flag_false_of_info_none (df : List Row) (st : SessionState)
    (t : String) (h : (resolveIdentity df st t).1 = none) :
    (resolveIdentity df st t).2 = false := by
  unfold resolveIdentity at h ⊢
  by_cases hg : (st.asked_for_name_in_last_turn && st.customer_info.isNone) = true
  · rw [if_pos hg] at h ⊢
    cases get_customer_details df (strTrim t) <;> rfl
  · rw [if_neg hg] at h ⊢
    dsimp only at h ⊢
    cases hask : st.asked_for_name_in_last_turn with
    | false => rfl
    | true =>
      exact absurd (show (st.asked_for_name_in_last_turn && st.customer_info.isNone) = true by
        rw [hask, h]; rfl) hg

/-- C4: after every completed `/process_audio` turn the history has at most
`MAX_HISTORY_TURNS * 2 = 20` entries, is a suffix of the pre-trim history
(oldest entries dropped first, most recent kept), and trimming preserves
role alternation. -/
theorem C4_history_bound (df : List Row) (st : SessionState) (t reply sp : String)
    (ttsOk : Bool) (ht : t ≠ "")
    (hsp : generate_system_prompt (resolveIdentity df st t).1 = some sp) :
    (processAudio df (some t) reply ttsOk st).1.conversation_history.length ≤
        MAX_HISTORY_TURNS * 2 ∧
      (processAudio df (some t) reply ttsOk st).1.conversation_history <:+
        st.conversation_history ++ [⟨Role.user, t⟩] ++ [⟨Role.model, reply⟩] ∧
      (alternatingB (st.conversation_history ++ [⟨Role.user, t⟩] ++ [⟨Role.model, reply⟩]) =
          true →
        alternatingB (processAudio df (some t) reply ttsOk st).1.conversation_history =
          true) := by
  rw [processAudio_eq_success df t reply sp ttsOk st ht hsp]
  dsimp only
  exact ⟨trimHistory_length_le _, trimHistory_suffix _, fun ha => alternatingB_trimHistory _ ha⟩

/-- C4 witness: the bound instantiated on a concrete completed turn. -/
theorem C4_history_bound_witness :
    (processAudio [] (some ("hi")) ("ok") true resetState).1.conversation_history.length ≤
      MAX_HISTORY_TURNS * 2 :=
  (C4_history_bound [] resetState ("hi") ("ok") unknownBranchPrompt true (by decide) rfl).1

/-- C5: on a completed turn whose post-lookup `customer_info` is still
absent, the session ends the turn awaiting a name exactly when the reply
matches the name-request heuristic. -/
theorem C5_name_request_transition (df : List Row) (st : SessionState) (t reply : String)
    (ttsOk : Bool) (ht : t ≠ "")
    (hinfo : (processAudio df (some t) reply ttsOk st).1.customer_info = none) :
    (processAudio df (some t) reply ttsOk st).1.asked_for_name_in_last_turn =
      nameRequestHeuristic reply := by
  cases hg : generate_system_prompt (resolveIdentity df st t).1 with
  | none =>
    rw [processAudio_eq_composeFail df t reply ttsOk st ht hg] at hinfo
    dsimp only at hinfo
    rw [hinfo, generate_none_eq] at hg
    exact absurd hg (by simp)
  | some sp =>
    rw [processAudio_eq_success df t reply sp ttsOk st ht hg] at hinfo ⊢
    dsimp only at hinfo ⊢
    have hrf := resolveIdentity_flag_false_of_info_none df st t hinfo
    rw [hinfo] at hg
    have hdec := generate_contains_unknown_decide none sp hg
    rw [hinfo, hrf]
    unfold updateAskedFlag
    rw [hdec]
    simp only [Option.isNone_none, Bool.and_true, if_true]
    cases nameRequestHeuristic reply <;> simp

/-- C5 witness: a reply phrased "Could you tell me your name?" sets the
awaiting-name flag on a concrete completed turn with no known customer. -/
theorem C5_name_request_transition_witness :
    (processAudio [] (some ("Jane Smith")) ("Could you tell me your name?") true resetState).1.asked_for_name_in_last_turn =
      nameRequestHeuristic ("Could you tell me your name?") :=
  C5_name_request_transition [] resetState ("Jane Smith") ("Could you tell me your name?") true
    (by decide) rfl

/-- C8: an empty transcript leaves the whole session state unchanged, and
(when speech synthesis succeeds) the operation returns the fixed
"didn't catch that" re-prompt. -/
theorem C8_empty_transcript (df : List Row) (reply : String) (ttsOk : Bool)
    (st : SessionState) :
    (processAudio df (some ("")) reply ttsOk st).1 = st ∧
      (ttsOk = true → (processAudio df (some ("")) reply ttsOk st).2 =
        .spokenReply ("I'm sorry, I didn't catch that. Could you please repeat?")) := by
  rw [processAudio_eq_empty]
  exact ⟨rfl, fun htt => by rw [htt]; rfl⟩

/-- C8 witness: the empty-transcript turn on the reset state. -/
theorem C8_empty_transcript_witness :
    (processAudio [] (some ("")) ("r") true resetState).1 = resetState ∧
      ((true : Bool) = true → (processAudio [] (some ("")) ("r") true resetState).2 =
        .spokenReply ("I'm sorry, I didn't catch that. Could you please repeat?")) :=
  C8_empty_transcript [] ("r") true resetState

/-- C2 counterexample: a turn that ends in the caught-exception error
response (TTS failing after the reply was computed) does not leave the
session state unchanged: the history gained both utterances. This refutes
the claim that every error turn restores the pre-turn state. -/
theorem C2_counterexample :
    ¬ ∀ (df : List Row) (stt : Option String) (reply : String) (ttsOk : Bool)
        (st : SessionState),
        isErrorOutcome (processAudio df stt reply ttsOk st).2 = true →
          (processAudio df stt reply ttsOk st).1 = st := by
  intro hclaim
  have hstep := processAudio_eq_success [] ("Hello there") ("Hi") unknownBranchPrompt false
    resetState (by decide) rfl
  have herr : isErrorOutcome (processAudio [] (some ("Hello there")) ("Hi") false resetState).2 =
      true := by
    rw [hstep]
    rfl
  have heq := congrArg SessionState.conversation_history
    (hclaim [] (some ("Hello there")) ("Hi") false resetState herr)
  rw [hstep] at heq
  dsimp only [resetState] at heq
  exact absurd heq (by decide)

/-- C2 amended: error turns restore the pre-turn state only when the failure
happens before the customer utterance is appended (STT exception or empty
transcript). Once the transcript is usable the mutations persist: the final
state does not depend on TTS success at all (a TTS failure after the reply
leaves the fully-updated post-turn state), and a prompt-composition failure
leaves the customer utterance appended with no agent utterance and the
post-resolution identity fields. -/
theorem C2_turn_atomicity_amended :
    (∀ (df : List Row) (reply : String) (ttsOk : Bool) (st : SessionState),
        (processAudio df none reply ttsOk st).1 = st) ∧
    (∀ (df : List Row) (reply : String) (ttsOk : Bool) (st : SessionState),
        (processAudio df (some ("")) reply ttsOk st).1 = st) ∧
    (∀ (df : List Row) (t reply : String) (st : SessionState), t ≠ "" →
        (processAudio df (some t) reply false st).1 =
          (processAudio df (some t) reply true st).1) ∧
    (∀ (df : List Row) (t reply : String) (ttsOk : Bool) (st : SessionState), t ≠ "" →
        generate_system_prompt (resolveIdentity df st t).1 = none →
        (processAudio df (some t) reply ttsOk st).1 =
          ⟨(resolveIdentity df st t).1, st.conversation_history ++ [⟨Role.user, t⟩],
            (resolveIdentity df st t).2⟩) := by
  refine ⟨fun df reply ttsOk st => rfl, fun df reply ttsOk st => ?_, ?_, ?_⟩
  · rw [processAudio_eq_empty]
  · intro df t reply st ht
    cases hg : generate_system_prompt (resolveIdentity df st t).1 with
    | none =>
      rw [processAudio_eq_composeFail df t reply false st ht hg,
        processAudio_eq_composeFail df t reply true st ht hg]
    | some sp =>
      rw [processAudio_eq_success df t reply sp false st ht hg,
        processAudio_eq_success df t reply sp true st ht hg]
  · intro df t reply ttsOk st ht hg
    rw [processAudio_eq_composeFail df t reply ttsOk st ht hg]

/-- C2 amended witness: the post-turn state of a concrete usable-transcript
turn is the same whether or not TTS fails. -/
theorem C2_turn_atomicity_amended_witness :
    (processAudio [] (some ("hi")) ("ok") false resetState).1 =
      (processAudio [] (some ("hi")) ("ok") true resetState).1 :=
  C2_turn_atomicity_amended.2.2.1 [] ("hi") ("ok") resetState (by decide)

/-- The directory row of the C7 scenario (after `load_data`'s coercions all
four fields are as written). -/
def johnRow : Row := ⟨"John Doe", PValue.vNum 700, PValue.vNum 500, PValue.vNum 10000⟩

def johnDir : List Row := [johnRow]

def johnDict : CustDict := rowToDict johnRow

/-- The prompt arguments the C7 scenario renders. -/
def johnArgs : PromptArgs := ⟨"John Doe", "$10,000.00", "$500.00", "$250.00", "700"⟩

theorem composeArgs_john : composeArgs (some johnDict) = some johnArgs := by
  have hhalf : halfEmiStr (.vNum 500) = some ("$250.00") := by
    unfold halfEmiStr
    rw [if_pos (show pyTruthy (.vNum 500) = true by decide)]
    show some (format_currency (.vNum ((500 : ℚ) * (1 / 2)))) = _
    rw [show (500 : ℚ) * (1 / 2) = 250 by norm_num]
    decide
  have hscore : scoreStr (.vNum 700) = some ("700") := by decide
  unfold composeArgs johnDict rowToDict johnRow
  dsimp only [Option.getD]
  rw [hhalf, hscore]
  decide

/-- C7: with the directory row `John Doe / 700 / 500 / 10000`, starting a
call as "john doe" resolves the identity to that record; the composed prompt
contains "$500.00", "$250.00", "$10,000.00" and "700"; and for every record
whose `Monthly Debt` is a number `q`, the rendered half-payment is exactly
`q * 0.5` pushed through the same `format_currency` rendering as the
monthly payment. -/
theorem C7_known_customer_formatting :
    ((∀ reply : String, (initiateCall johnDir ("john doe") reply).customer_info = some johnDict) ∧
      ∃ p, generate_system_prompt (some johnDict) = some p ∧
        strContains p ("$500.00") ∧ strContains p ("$250.00") ∧
        strContains p ("$10,000.00") ∧ strContains p ("700")) ∧
    (∀ (d : CustDict) (q : ℚ) (args : PromptArgs),
      d.Monthly_Debt = some (.vNum q) → composeArgs (some d) = some args →
      args.monthly_debt = formatCurrencyQ q ∧
      args.half_monthly_debt = formatCurrencyQ (q * (1 / 2))) := by
  constructor
  · constructor
    · intro reply
      have hinfo : initInfo johnDir ("john doe") = some johnDict := by decide
      have hsp : generate_system_prompt (initInfo johnDir ("john doe")) =
          some (renderTemplate ("John Doe") "$10,000.00" "$500.00" "$250.00" "700"
            UNKNOWN_CUSTOMER_PLACEHOLDER) := by
        rw [hinfo]
        unfold generate_system_prompt
        rw [composeArgs_john]
        rfl
      rw [initiateCall_eq_succ johnDir ("john doe") reply _ hsp]
      exact congrArg some (by decide)
    · refine ⟨renderTemplate ("John Doe") "$10,000.00" "$500.00" "$250.00" "700"
        UNKNOWN_CUSTOMER_PLACEHOLDER, ?_, ?_, ?_, ?_, ?_⟩
      · unfold generate_system_prompt
        rw [composeArgs_john]
        rfl
      · exact strContains_intro _ (tmplA ++ "John Doe" ++ tmplB ++ "$10,000.00" ++ tmplC)
          ("$500.00")
          (tmplD ++ "700" ++ tmplE ++ UNKNOWN_CUSTOMER_PLACEHOLDER ++ tmplF ++ "John Doe" ++
            tmplG ++ "$10,000.00" ++ tmplH ++ "$500.00" ++ tmplI ++ "$250.00" ++ tmplJ ++
            "700" ++ tmplK)
          (by simp only [renderTemplate, str_append_assoc])
      · exact strContains_intro _
          (tmplA ++ "John Doe" ++ tmplB ++ "$10,000.00" ++ tmplC ++ "$500.00" ++ tmplD ++
            "700" ++ tmplE ++ UNKNOWN_CUSTOMER_PLACEHOLDER ++ tmplF ++ "John Doe" ++ tmplG ++
            "$10,000.00" ++ tmplH ++ "$500.00" ++ tmplI)
          ("$250.00") (tmplJ ++ "700" ++ tmplK)
          (by simp only [renderTemplate, str_append_assoc])
      · exact strContains_intro _ (tmplA ++ "John Doe" ++ tmplB) ("$10,000.00")
          (tmplC ++ "$500.00" ++ tmplD ++ "700" ++ tmplE ++ UNKNOWN_CUSTOMER_PLACEHOLDER ++
            tmplF ++ "John Doe" ++ tmplG ++ "$10,000.00" ++ tmplH ++ "$500.00" ++ tmplI ++
            "$250.00" ++ tmplJ ++ "700" ++ tmplK)
          (by simp only [renderTemplate, str_append_assoc])
      · exact strContains_intro _
          (tmplA ++ "John Doe" ++ tmplB ++ "$10,000.00" ++ tmplC ++ "$500.00" ++ tmplD)
          ("700")
          (tmplE ++ UNKNOWN_CUSTOMER_PLACEHOLDER ++ tmplF ++ "John Doe" ++ tmplG ++
            "$10,000.00" ++ tmplH ++ "$500.00" ++ tmplI ++ "$250.00" ++ tmplJ ++ "700" ++
            tmplK)
          (by simp only [renderTemplate, str_append_assoc])
  · intro d q args hq hargs
    unfold composeArgs at hargs
    dsimp only at hargs
    rw [hq] at hargs
    simp only [Option.getD_some] at hargs
    by_cases hq0 : q = 0
    · subst hq0
      rw [show halfEmiStr (.vNum 0) = some (formatCurrencyQ 0) from by
        unfold halfEmiStr
        rw [if_neg (show ¬pyTruthy (.vNum 0) = true by decide)]
        rfl] at hargs
      cases hsc : scoreStr (d.Credit_Score.getD (.vNum 0)) with
      | none =>
        rw [hsc] at hargs
        exact absurd hargs (by simp)
      | some sc =>
        rw [hsc] at hargs
        dsimp only at hargs
        have h2 := Option.some.inj hargs
        rw [← h2]
        refine ⟨rfl, ?_⟩
        show formatCurrencyQ 0 = formatCurrencyQ (0 * (1 / 2))
        rw [show (0 : ℚ) * (1 / 2) = 0 by norm_num]
    · rw [show halfEmiStr (.vNum q) = some (formatCurrencyQ (q * (1 / 2))) from by
        unfold halfEmiStr
        rw [if_pos (show pyTruthy (.vNum q) = true by
          simp [pyTruthy]
          exact hq0)]
        rfl] at hargs
      cases hsc : scoreStr (d.Credit_Score.getD (.vNum 0)) with
      | none =>
        rw [hsc] at hargs
        exact absurd hargs (by simp)
      | some sc =>
        rw [hsc] at hargs
        dsimp only at hargs
        have h2 := Option.some.inj hargs
        rw [← h2]
        exact ⟨rfl, rfl⟩

/-- C7 witness: the half-payment law applied to a concrete record with a
zero monthly payment. -/
theorem C7_known_customer_formatting_witness :
    (⟨"Z", "$0.00", "$0.00", "$0.00", "N/A"⟩ : PromptArgs).monthly_debt =
        formatCurrencyQ 0 ∧
      (⟨"Z", "$0.00", "$0.00", "$0.00", "N/A"⟩ : PromptArgs).half_monthly_debt =
        formatCurrencyQ (0 * (1 / 2)) :=
  C7_known_customer_formatting.2
    ⟨some (.vStr ("Z")), some (.vNum 0), some (.vNum 0), some (.vNum 0)⟩ 0
    ⟨"Z", "$0.00", "$0.00", "$0.00", "N/A"⟩ rfl (by decide)

/-- C9: the prompt composed for the absent customer contains the exact
placeholder `UNKNOWN_CUSTOMER_PLACEHOLDER`, the constant the pending-name
detection checks against. -/
theorem C9_unknown_prompt_contains_placeholder :
    ∃ p, generate_system_prompt none = some p ∧
      strContains p UNKNOWN_CUSTOMER_PLACEHOLDER :=
  ⟨unknownBranchPrompt, generate_none_eq, renderTemplate_contains_unknown _ _ _ _ _ _⟩

/-- C10: every prompt `generate_system_prompt` composes (for any input, the
known-customer branch included) contains `UNKNOWN_CUSTOMER_PLACEHOLDER`,
because the template substitutes the constant unconditionally; hence the
`placeholder in system_prompt` guard used by both routes reduces to whether
`customer_info` is absent. -/
theorem C10_every_prompt_contains_placeholder (ci : Option CustDict) (p : String)
    (h : generate_system_prompt ci = some p) :
    strContains p UNKNOWN_CUSTOMER_PLACEHOLDER ∧
      (ci.isNone && decide (strContains p UNKNOWN_CUSTOMER_PLACEHOLDER)) = ci.isNone := by
  have hc := generate_contains_unknown ci p h
  exact ⟨hc, by rw [decide_eq_true hc, Bool.and_true]⟩

/-- C10 witness: instantiated at the absent customer and its composed
prompt. -/
theorem C10_every_prompt_contains_placeholder_witness :
    strContains unknownBranchPrompt UNKNOWN_CUSTOMER_PLACEHOLDER ∧
      ((none : Option CustDict).isNone &&
        decide (strContains unknownBranchPrompt UNKNOWN_CUSTOMER_PLACEHOLDER)) =
        (none : Option CustDict).isNone :=
  C10_every_prompt_contains_placeholder none unknownBranchPrompt rfl

end VoiceBot
